import Mathlib

/-!
Shallow embedding of the AVM2 method subsystem
(src/core/src/avm2/method.rs) of the Ruffle runtime.

External collaborators (translation-unit constant-pool lookup, default-value
decoding, the bytecode verifier, AVM error-object construction) are modelled
as oracle functions bundled in a context `Ctx`, mirroring the `Activation`
parameter threaded through the Rust code.  GC handles (`Gc`, `Rc`) become
plain values; interior mutability (`RefLock`) becomes explicit state passing:
`verify` returns the post-state descriptor together with an optional error.
A Rust panic (an `unwrap` on `None`) is modelled by an outer `Option`
returning `none`.
-/

namespace AVM2

/-- Opaque token standing for a `Multiname` (an unresolved type name). -/
abbrev Multiname := Nat

/-- Opaque token standing for a resolved `Class` object. -/
abbrev Class := Nat

/-- Opaque token standing for a runtime `Value`. -/
abbrev Value := Nat

/-- Opaque token standing for a raw ABC default-value constant
(`swf::avm2::types::DefaultValue`). -/
abbrev AbcConstant := Nat

/-- Runtime error type: either a catchable AVM error object
(`Error::AvmError`) or some other (internal/collaborator) error. -/
inductive Error where
  | avmError (v : Value)
  | external (n : Nat)
deriving DecidableEq, Repr

/-- Modelled from the spec: the container-declared "needs arguments" flag.
The swf crate (`swf::avm2::types::MethodFlags`, not under src) keeps the
flags as a `u8` bitflags set; bit 0 is `NEED_ARGUMENTS`. -/
def NEED_ARGUMENTS : Nat := 1

/-- Modelled from the spec: bit 1 of the method flag byte,
`NEED_ACTIVATION`. -/
def NEED_ACTIVATION : Nat := 2

/-- Modelled from the spec: the container-declared "needs rest" flag,
bit 2 of the method flag byte. -/
def NEED_REST : Nat := 4

/-- bitflags `intersects`: some common bit is set. -/
def flagsIntersects (flags mask : Nat) : Bool := flags &&& mask != 0

/-- bitflags `contains`: every bit of the mask is set. -/
def flagsContains (flags mask : Nat) : Bool := flags &&& mask == mask

/-- One formal parameter of an ABC method entry
(`swf::avm2::types::MethodParam`): a constant-pool index for the declared
type and an optional raw default value. -/
structure AbcMethodParam where
  kind : Nat
  default_value : Option AbcConstant
deriving DecidableEq, Repr

/-- One entry of the ABC method table (`swf::avm2::types::Method`).
`flags` is a `u8` bit set; `name` indexes the string constant pool
(0 meaning "no name"); `body` optionally indexes the method-body table. -/
structure AbcMethod where
  name : Nat
  params : List AbcMethodParam
  return_type : Nat
  flags : Nat
  body : Option Nat
deriving DecidableEq, Repr

/-- The parts of a parsed ABC file the method subsystem reads:
the method table, the method-body table (bodies as opaque tokens), and the
string constant pool (strings after lossy UTF-8 decoding). -/
structure AbcFile where
  methods : List AbcMethod
  method_bodies : List Nat
  constant_pool_strings : List String
deriving DecidableEq, Repr

/-- A loaded translation unit; `abc` is the parsed container it wraps
(the Rust code shares it behind an `Rc`). -/
structure TranslationUnit where
  abc : AbcFile
deriving DecidableEq, Repr

/-- The result the external verifier stores on success.  The real record
also holds the verified bytecode form, which is out of scope here; we keep
the resolved return-type class it exposes. -/
structure VerifiedMethodInfo where
  return_type : Option Class
deriving DecidableEq, Repr

/-- Configuration of a single parameter of a method
(`ParamConfig` in method.rs). -/
structure ParamConfig where
  param_type_name : Option Multiname
  default_value : Option Value
deriving DecidableEq, Repr

/-- Configuration of a single parameter with the type resolved
(`ResolvedParamConfig` in method.rs). -/
structure ResolvedParamConfig where
  param_type : Option Class
  default_value : Option Value
deriving DecidableEq, Repr

/-- A `BytecodeMethod` descriptor.  `verified_info` is the `RefLock` cell,
carried as a plain field under explicit state passing. -/
structure BytecodeMethod where
  txunit : TranslationUnit
  abc : AbcFile
  abc_method : Nat
  abc_method_body : Option Nat
  verified_info : Option VerifiedMethodInfo
  signature : List ParamConfig
  return_type : Option Multiname
  is_function : Bool
  is_unchecked : Bool
deriving DecidableEq, Repr

/-- A `NativeMethod` descriptor; the function pointer is an opaque token. -/
structure NativeMethod where
  method : Nat
  name : String
  signature : List ParamConfig
  resolved_signature : Option (List ResolvedParamConfig)
  return_type : Option Multiname
  is_variadic : Bool
deriving DecidableEq, Repr

/-- Modelled from the spec: the oracle bundle standing for the `Activation`
context and the external collaborators it reaches, none of which live under
src: constant-pool multiname lookup
(`TranslationUnit::pool_multiname_static_any`), default-value decoding
(`abc_default_value`), the external verifier (`verify::verify_method`) and
AVM error-object construction (`error::verify_error`).  Each is a fallible
call, per the interface contracts of section 6 of the spec. -/
structure Ctx where
  pool_multiname_static_any : TranslationUnit → Nat → Except Error (Option Multiname)
  abc_default_value : TranslationUnit → AbcConstant → Except Error Value
  verify_method : BytecodeMethod → Except Error VerifiedMethodInfo
  verify_error : String → Nat → Except Error Value

/-- `ParamConfig::from_abc_param`: resolve the declared type name through the
constant pool and decode the default value when present. -/
def ParamConfig.from_abc_param (ctx : Ctx) (txunit : TranslationUnit)
    (config : AbcMethodParam) : Except Error ParamConfig := do
  let param_type_name ← ctx.pool_multiname_static_any txunit config.kind
  let default_value ←
    match config.default_value with
    | some dv => do
        let v ← ctx.abc_default_value txunit dv
        pure (some v)
    | none => pure none
  pure { param_type_name, default_value }

/-- The signature-building loop of `from_method_index`: one
`ParamConfig::from_abc_param` per declared parameter, in declaration order,
stopping at the first error. -/
def buildSignature (ctx : Ctx) (txunit : TranslationUnit) :
    List AbcMethodParam → Except Error (List ParamConfig)
  | [] => .ok []
  | p :: rest => do
      let c ← ParamConfig.from_abc_param ctx txunit p
      let cs ← buildSignature ctx txunit rest
      pure (c :: cs)

/-- The message of AVM error #1027. -/
def err1027msg : String := "Error #1027: Method_info exceeds method_count."

/-- `BytecodeMethod::from_method_index`: bounds-check the method index,
build the declared signature, resolve the return-type name, and derive the
`is_unchecked` flag from the loop over the built signature. -/
def BytecodeMethod.from_method_index (ctx : Ctx) (txunit : TranslationUnit)
    (abc_method : Nat) (is_function : Bool) : Except Error BytecodeMethod :=
  match txunit.abc.methods[abc_method]? with
  | none =>
      match ctx.verify_error err1027msg 1027 with
      | .ok v => .error (.avmError v)
      | .error e => .error e
  | some method => do
      let signature ← buildSignature ctx txunit method.params
      let return_type ← ctx.pool_multiname_static_any txunit method.return_type
      let abc_method_body := method.body
      let all_params_unchecked := signature.foldl
        (fun acc p =>
          if p.param_type_name.isSome || p.default_value.isSome then false else acc)
        true
      pure { txunit,
             abc := txunit.abc,
             abc_method,
             abc_method_body,
             verified_info := none,
             signature,
             return_type,
             is_function,
             is_unchecked := is_function && all_params_unchecked }

/-- `BytecodeMethod::method`: look up the stored method index in the stored
ABC file.  The Rust code unwraps; `none` here models the panic. -/
def BytecodeMethod.method? (self : BytecodeMethod) : Option AbcMethod :=
  self.abc.methods[self.abc_method]?

/-- `BytecodeMethod::verify`: run the external verifier; on success store
its result in the cache, on error propagate and leave the state untouched
(the Rust `?` returns before the cell is written). -/
def BytecodeMethod.verify (ctx : Ctx) (this : BytecodeMethod) :
    BytecodeMethod × Option Error :=
  match ctx.verify_method this with
  | .ok info => ({ this with verified_info := some info }, none)
  | .error e => (this, some e)

/-- `BytecodeMethod::resolved_return_type`: unwrap the cache and read the
resolved return type.  The outer `none` models the panic of `unwrap` when
the cache has never been filled. -/
def BytecodeMethod.resolved_return_type? (self : BytecodeMethod) :
    Option (Option Class) :=
  self.verified_info.map fun info => info.return_type

/-- `BytecodeMethod::method_name`: index 0 is the empty name, otherwise the
string pool is consulted (missing entries degrade to the empty string).
The outer `none` models the panic of the `method()` unwrap. -/
def BytecodeMethod.method_name? (self : BytecodeMethod) : Option String :=
  self.method?.map fun m =>
    if m.name == 0 then ""
    else
      match self.abc.constant_pool_strings[m.name - 1]? with
      | some s => s
      | none => ""

/-- `BytecodeMethod::is_variadic`: the method entry declares
`NEED_ARGUMENTS` or `NEED_REST`.  The outer `none` models the panic of the
`method()` unwrap. -/
def BytecodeMethod.is_variadic? (self : BytecodeMethod) : Option Bool :=
  self.method?.map fun m =>
    flagsIntersects m.flags (NEED_ARGUMENTS ||| NEED_REST)

/-- `BytecodeMethod::is_unchecked`: returns the cached derived field. -/
def BytecodeMethod.is_unchecked_query (self : BytecodeMethod) : Bool :=
  self.is_unchecked

/-- The `Method` tagged union over native and bytecode descriptors. -/
inductive Method where
  | Native (nm : NativeMethod)
  | Bytecode (bm : BytecodeMethod)
deriving DecidableEq, Repr

/-- The `From<Gc<BytecodeMethod>> for Method` conversion. -/
def Method.fromBytecodeMethod (bm : BytecodeMethod) : Method :=
  .Bytecode bm

/-- `Method::into_bytecode`: the bytecode descriptor, or `None` when
native. -/
def Method.into_bytecode : Method → Option BytecodeMethod
  | .Native _ => none
  | .Bytecode bm => some bm

/-- `Method::return_type`. -/
def Method.return_type : Method → Option Multiname
  | .Native nm => nm.return_type
  | .Bytecode bm => bm.return_type

/-- `Method::signature`. -/
def Method.signature : Method → List ParamConfig
  | .Native nm => nm.signature
  | .Bytecode bm => bm.signature

/-- `Method::is_variadic`: construction-time flag for native methods,
container flags for bytecode methods (which may panic, hence `Option`). -/
def Method.is_variadic? : Method → Option Bool
  | .Native nm => some nm.is_variadic
  | .Bytecode bm => bm.is_variadic?

/-- `Method::needs_arguments_object`: false for native methods; for
bytecode methods, the entry declares `NEED_ARGUMENTS` (may panic, hence
`Option`). -/
def Method.needs_arguments_object? : Method → Option Bool
  | .Native _ => some false
  | .Bytecode bm => bm.method?.map fun m => flagsContains m.flags NEED_ARGUMENTS

/-- Concrete context whose collaborators all succeed: pool index 0 means
"no name", the verifier reports class 42 as return type. -/
def ctxA : Ctx where
  pool_multiname_static_any := fun _ k => .ok (if k == 0 then none else some k)
  abc_default_value := fun _ c => .ok c
  verify_method := fun _ => .ok { return_type := some 42 }
  verify_error := fun _ code => .ok code

/-- Concrete method entry 0: no parameters, `NEED_REST` set. -/
def mA0 : AbcMethod where
  name := 1
  params := []
  return_type := 0
  flags := NEED_REST
  body := none

/-- Concrete method entry 1: one untyped parameter, `NEED_ARGUMENTS` set. -/
def mA1 : AbcMethod where
  name := 0
  params := [{ kind := 0, default_value := none }]
  return_type := 0
  flags := NEED_ARGUMENTS
  body := some 0

/-- Concrete translation unit holding the two entries above. -/
def tuA : TranslationUnit where
  abc := { methods := [mA0, mA1], method_bodies := [0],
           constant_pool_strings := ["foo"] }

/-- The descriptor from_method_index builds for entry 0 of tuA. -/
def bmA : BytecodeMethod where
  txunit := tuA
  abc := tuA.abc
  abc_method := 0
  abc_method_body := none
  verified_info := none
  signature := []
  return_type := none
  is_function := true
  is_unchecked := true

/-- The descriptor from_method_index builds for entry 1 of tuA. -/
def bmA1 : BytecodeMethod where
  txunit := tuA
  abc := tuA.abc
  abc_method := 1
  abc_method_body := some 0
  verified_info := none
  signature := [{ param_type_name := none, default_value := none }]
  return_type := none
  is_function := false
  is_unchecked := false

/-- Context whose constant-pool lookup fails. -/
def ctxBad : Ctx where
  pool_multiname_static_any := fun _ _ => .error (.external 7)
  abc_default_value := fun _ c => .ok c
  verify_method := fun _ => .ok { return_type := none }
  verify_error := fun _ code => .ok code

/-- Translation unit with one in-range method that declares one parameter. -/
def tuB : TranslationUnit where
  abc := { methods := [{ name := 0,
                         params := [{ kind := 3, default_value := none }],
                         return_type := 0, flags := 0, body := none }],
           method_bodies := [], constant_pool_strings := [] }

/-- Context whose external verifier fails. -/
def ctxFail : Ctx where
  pool_multiname_static_any := fun _ k => .ok (if k == 0 then none else some k)
  abc_default_value := fun _ c => .ok c
  verify_method := fun _ => .error (.external 9)
  verify_error := fun _ code => .ok code

/-- Concrete native method descriptor. -/
def nmA : NativeMethod where
  method := 0
  name := "print"
  signature := []
  resolved_signature := none
  return_type := none
  is_variadic := true

/-- The fold of the `all_params_unchecked` loop computes a conjunction over
the list. -/
theorem foldl_unchecked_eq (l : List ParamConfig) (b : Bool) :
    l.foldl
      (fun acc p =>
        if p.param_type_name.isSome || p.default_value.isSome then false else acc)
      b
      = (b && l.all fun p => p.param_type_name.isNone && p.default_value.isNone) := by
  induction l generalizing b with
  | nil => simp
  | cons p rest ih =>
      simp only [List.foldl_cons, List.all_cons, ih]
      cases hp : p.param_type_name <;> cases hd : p.default_value <;>
        simp [hp, hd]

/-- Reduction of the monadic bind on Except at an ok value. -/
theorem except_bind_ok {α β ε : Type} (a : α) (f : α → Except ε β) :
    (Except.ok a >>= f) = f a := rfl

/-- Reduction of the monadic bind on Except at an error value. -/
theorem except_bind_error {α β ε : Type} (e : ε) (f : α → Except ε β) :
    ((Except.error e : Except ε α) >>= f) = .error e := rfl

/-- Reduction of pure on Except. -/
theorem except_pure_def {α ε : Type} (a : α) :
    (pure a : Except ε α) = .ok a := rfl

/-- Reduction of verify when the external verifier succeeds. -/
theorem verify_eq_of_ok (ctx : Ctx) (bm : BytecodeMethod)
    (info : VerifiedMethodInfo) (h : ctx.verify_method bm = .ok info) :
    BytecodeMethod.verify ctx bm =
      ({ bm with verified_info := some info }, none) := by
  unfold BytecodeMethod.verify
  rw [h]

/-- Reduction of verify when the external verifier fails. -/
theorem verify_eq_of_error (ctx : Ctx) (bm : BytecodeMethod) (e : Error)
    (h : ctx.verify_method bm = .error e) :
    BytecodeMethod.verify ctx bm = (bm, some e) := by
  unfold BytecodeMethod.verify
  rw [h]

/-- Successful signature building yields one config per declared parameter,
in order, each produced by from_abc_param on the matching entry. -/
theorem buildSignature_ok (ctx : Ctx) (tu : TranslationUnit) :
    ∀ (l : List AbcMethodParam) (s : List ParamConfig),
      buildSignature ctx tu l = .ok s →
      s.length = l.length ∧
      ∀ (j : Nat) (p : AbcMethodParam), l[j]? = some p →
        ∃ c, s[j]? = some c ∧ ParamConfig.from_abc_param ctx tu p = .ok c := by
  intro l
  induction l with
  | nil =>
      intro s h
      simp only [buildSignature] at h
      cases h
      simp
  | cons p rest ih =>
      intro s h
      simp only [buildSignature] at h
      cases hc : ParamConfig.from_abc_param ctx tu p with
      | error e => rw [hc, except_bind_error] at h; cases h
      | ok c =>
          rw [hc, except_bind_ok] at h
          cases hr : buildSignature ctx tu rest with
          | error e =>
              rw [hr, except_bind_error] at h
              cases h
          | ok cs =>
              rw [hr, except_bind_ok, except_pure_def] at h
              cases h
              obtain ⟨hlen, helem⟩ := ih cs hr
              refine ⟨by simp [hlen], ?_⟩
              intro j q hq
              cases j with
              | zero =>
                  simp at hq
                  subst hq
                  exact ⟨c, by simp, hc⟩
              | succ j =>
                  simp only [List.getElem?_cons_succ] at hq ⊢
                  exact helem j q hq

set_option maxRecDepth 8192

/-- Within the `u8` flag range, declaring `NEED_ARGUMENTS` implies
intersecting `NEED_ARGUMENTS ||| NEED_REST`. -/
theorem u8_contains_args_intersects :
    ∀ f < 256, flagsContains f NEED_ARGUMENTS = true →
      flagsIntersects f (NEED_ARGUMENTS ||| NEED_REST) = true := by decide

/-- Within the `u8` flag range, intersecting `NEED_ARGUMENTS ||| NEED_REST`
is the same as declaring `NEED_REST` or declaring `NEED_ARGUMENTS`. -/
theorem u8_intersects_iff :
    ∀ f < 256,
      (flagsIntersects f (NEED_ARGUMENTS ||| NEED_REST) = true ↔
        flagsContains f NEED_REST = true ∨ flagsContains f NEED_ARGUMENTS = true) := by
  decide

/-- Destructor for a successful from_method_index: the index is in range and
the descriptor is exactly the record the constructor builds. -/
theorem from_method_index_ok_destruct (ctx : Ctx) (tu : TranslationUnit)
    (i : Nat) (isf : Bool) (bm : BytecodeMethod)
    (h : BytecodeMethod.from_method_index ctx tu i isf = .ok bm) :
    ∃ m sig rt, tu.abc.methods[i]? = some m ∧
      buildSignature ctx tu m.params = .ok sig ∧
      ctx.pool_multiname_static_any tu m.return_type = .ok rt ∧
      bm = { txunit := tu, abc := tu.abc, abc_method := i,
             abc_method_body := m.body, verified_info := none,
             signature := sig, return_type := rt, is_function := isf,
             is_unchecked := isf && sig.foldl
               (fun acc p =>
                 if p.param_type_name.isSome || p.default_value.isSome then false
                 else acc)
               true } := by
  unfold BytecodeMethod.from_method_index at h
  split at h
  case h_1 hm =>
      split at h <;> cases h
  case h_2 m hm =>
      cases hs : buildSignature ctx tu m.params with
      | error e => rw [hs, except_bind_error] at h; cases h
      | ok sig =>
          rw [hs, except_bind_ok] at h
          cases hr : ctx.pool_multiname_static_any tu m.return_type with
          | error e =>
              rw [hr, except_bind_error] at h
              cases h
          | ok rt =>
              rw [hr, except_bind_ok, except_pure_def] at h
              cases h
              exact ⟨m, sig, rt, hm, hs, hr, rfl⟩

/-- Converse construction: in range with succeeding collaborators, the
constructor succeeds and builds exactly that record. -/
theorem from_method_index_ok_intro (ctx : Ctx) (tu : TranslationUnit)
    (i : Nat) (isf : Bool) (m : AbcMethod) (sig : List ParamConfig)
    (rt : Option Multiname)
    (hm : tu.abc.methods[i]? = some m)
    (hs : buildSignature ctx tu m.params = .ok sig)
    (hr : ctx.pool_multiname_static_any tu m.return_type = .ok rt) :
    BytecodeMethod.from_method_index ctx tu i isf =
      .ok { txunit := tu, abc := tu.abc, abc_method := i,
            abc_method_body := m.body, verified_info := none,
            signature := sig, return_type := rt, is_function := isf,
            is_unchecked := isf && sig.foldl
              (fun acc p =>
                if p.param_type_name.isSome || p.default_value.isSome then false
                else acc)
              true } := by
  unfold BytecodeMethod.from_method_index
  split
  case h_1 hm2 => rw [hm] at hm2; cases hm2
  case h_2 m2 hm2 =>
      rw [hm] at hm2
      cases hm2
      rw [hs, except_bind_ok, hr, except_bind_ok, except_pure_def]

/-- Claim C1: every descriptor successfully built by from_method_index has
its is_unchecked field (and the is_unchecked query) true exactly when the
is_function flag passed at construction is true and every ParamConfig in the
built signature has no declared type name and no default value. -/
theorem C1_is_unchecked_iff (ctx : Ctx) (tu : TranslationUnit) (i : Nat)
    (isf : Bool) (bm : BytecodeMethod)
    (h : BytecodeMethod.from_method_index ctx tu i isf = .ok bm) :
    bm.is_unchecked_query = bm.is_unchecked ∧
    (bm.is_unchecked = true ↔
      isf = true ∧
        ∀ p ∈ bm.signature, p.param_type_name = none ∧ p.default_value = none) := by
  obtain ⟨m, sig, rt, hm, hs, hr, hbm⟩ :=
    from_method_index_ok_destruct ctx tu i isf bm h
  subst hbm
  refine ⟨rfl, ?_⟩
  show (isf && sig.foldl _ true) = true ↔ _
  rw [foldl_unchecked_eq]
  simp [List.all_eq_true, Bool.and_eq_true, Option.isNone_iff_eq_none]

/-- Witness for C1 at the concrete context ctxA, container tuA, index 0. -/
theorem C1_is_unchecked_iff_witness :
    BytecodeMethod.from_method_index ctxA tuA 0 true = .ok bmA ∧
    (bmA.is_unchecked_query = bmA.is_unchecked ∧
      (bmA.is_unchecked = true ↔
        true = true ∧
          ∀ p ∈ bmA.signature,
            p.param_type_name = none ∧ p.default_value = none)) :=
  ⟨rfl, C1_is_unchecked_iff ctxA tuA 0 true bmA rfl⟩

/-- Claim C2: an out-of-range method index makes from_method_index fail with
an error and produce no descriptor; when the AVM error constructor succeeds,
the error is the catchable VerifyError object for code 1027. -/
theorem C2_out_of_range_fails (ctx : Ctx) (tu : TranslationUnit) (i : Nat)
    (isf : Bool) (h : tu.abc.methods.length ≤ i) :
    (∃ e, BytecodeMethod.from_method_index ctx tu i isf = .error e) ∧
    ∀ v, ctx.verify_error err1027msg 1027 = .ok v →
      BytecodeMethod.from_method_index ctx tu i isf = .error (.avmError v) := by
  have hn : tu.abc.methods[i]? = none := List.getElem?_eq_none h
  have key : ∀ v, ctx.verify_error err1027msg 1027 = .ok v →
      BytecodeMethod.from_method_index ctx tu i isf = .error (.avmError v) := by
    intro v hv
    unfold BytecodeMethod.from_method_index
    rw [hn, hv]
  refine ⟨?_, key⟩
  cases hv : ctx.verify_error err1027msg 1027 with
  | ok v => exact ⟨.avmError v, key v hv⟩
  | error e =>
      refine ⟨e, ?_⟩
      unfold BytecodeMethod.from_method_index
      rw [hn, hv]

/-- Witness for C2 at index 5 of the two-method container tuA. -/
theorem C2_out_of_range_fails_witness :
    tuA.abc.methods.length ≤ 5 ∧
    ((∃ e, BytecodeMethod.from_method_index ctxA tuA 5 false = .error e) ∧
      ∀ v, ctxA.verify_error err1027msg 1027 = .ok v →
        BytecodeMethod.from_method_index ctxA tuA 5 false =
          .error (.avmError v)) :=
  ⟨by decide, C2_out_of_range_fails ctxA tuA 5 false (by decide)⟩

/-- Claim C3: a failing verify leaves the descriptor, in particular its
verified_info cache, exactly as it was, and a subsequent verify runs the
external verifier again: its outcome is dictated by the verifier, not by any
cached result. -/
theorem C3_verify_error_leaves_cache (ctx : Ctx) (bm : BytecodeMethod)
    (e : Error) (h : ctx.verify_method bm = .error e) :
    BytecodeMethod.verify ctx bm = (bm, some e) ∧
    (∀ ctx2 info, ctx2.verify_method bm = .ok info →
      BytecodeMethod.verify ctx2 (BytecodeMethod.verify ctx bm).1 =
        ({ bm with verified_info := some info }, none)) ∧
    ∀ ctx2 e2, ctx2.verify_method bm = .error e2 →
      BytecodeMethod.verify ctx2 (BytecodeMethod.verify ctx bm).1 =
        (bm, some e2) := by
  have h1 : BytecodeMethod.verify ctx bm = (bm, some e) :=
    verify_eq_of_error ctx bm e h
  have hfst : (BytecodeMethod.verify ctx bm).1 = bm := by rw [h1]
  refine ⟨h1, ?_, ?_⟩
  · intro ctx2 info h2
    rw [hfst]
    exact verify_eq_of_ok ctx2 bm info h2
  · intro ctx2 e2 h2
    rw [hfst]
    exact verify_eq_of_error ctx2 bm e2 h2

/-- Witness for C3 with the always-failing verifier ctxFail on bmA. -/
theorem C3_verify_error_leaves_cache_witness :
    ctxFail.verify_method bmA = .error (.external 9) ∧
    (BytecodeMethod.verify ctxFail bmA = (bmA, some (.external 9)) ∧
      (∀ ctx2 info, ctx2.verify_method bmA = .ok info →
        BytecodeMethod.verify ctx2 (BytecodeMethod.verify ctxFail bmA).1 =
          ({ bmA with verified_info := some info }, none)) ∧
      ∀ ctx2 e2, ctx2.verify_method bmA = .error e2 →
        BytecodeMethod.verify ctx2 (BytecodeMethod.verify ctxFail bmA).1 =
          (bmA, some e2)) :=
  ⟨rfl, C3_verify_error_leaves_cache ctxFail bmA (.external 9) rfl⟩

/-- Claim C4: after verify succeeds, resolved_return_type reads exactly the
return-type class of the VerifiedMethodInfo the external verifier produced
(no panic), and it keeps doing so until another successful verify overwrites
the cache with its own result. -/
theorem C4_resolved_return_type_after_verify (ctx : Ctx)
    (bm : BytecodeMethod) (info : VerifiedMethodInfo)
    (h : ctx.verify_method bm = .ok info) :
    (BytecodeMethod.verify ctx bm).2 = none ∧
    ((BytecodeMethod.verify ctx bm).1).resolved_return_type? =
      some info.return_type ∧
    ∀ ctx2 info2,
      ctx2.verify_method (BytecodeMethod.verify ctx bm).1 = .ok info2 →
      ((BytecodeMethod.verify ctx2
          (BytecodeMethod.verify ctx bm).1).1).resolved_return_type? =
        some info2.return_type := by
  have h1 : BytecodeMethod.verify ctx bm =
      ({ bm with verified_info := some info }, none) :=
    verify_eq_of_ok ctx bm info h
  refine ⟨by rw [h1], by rw [h1]; rfl, ?_⟩
  intro ctx2 info2 h2
  rw [verify_eq_of_ok ctx2 (BytecodeMethod.verify ctx bm).1 info2 h2]
  rfl

/-- Witness for C4 with the succeeding verifier ctxA on bmA. -/
theorem C4_resolved_return_type_after_verify_witness :
    ctxA.verify_method bmA = .ok { return_type := some 42 } ∧
    ((BytecodeMethod.verify ctxA bmA).2 = none ∧
      ((BytecodeMethod.verify ctxA bmA).1).resolved_return_type? =
        some (some 42) ∧
      ∀ ctx2 info2,
        ctx2.verify_method (BytecodeMethod.verify ctxA bmA).1 = .ok info2 →
        ((BytecodeMethod.verify ctx2
            (BytecodeMethod.verify ctxA bmA).1).1).resolved_return_type? =
          some info2.return_type) :=
  ⟨rfl, C4_resolved_return_type_after_verify ctxA bmA { return_type := some 42 } rfl⟩

/-- Claim C5 counterexample: with an in-range index (the container tuB has
one method, so index 0 is in range) but a constant-pool lookup that fails,
from_method_index fails, refuting the unconditional never-fails claim. -/
theorem C5_counterexample :
    0 < tuB.abc.methods.length ∧
    BytecodeMethod.from_method_index ctxBad tuB 0 false =
      .error (.external 7) :=
  ⟨by decide, rfl⟩

/-- Claim C5 (amended): for an in-range method index, when the type-name
pooling of each parameter, the decoding of each declared default value and
the pooling of the return-type name all succeed, from_method_index succeeds
and the signature has exactly one ParamConfig per declared parameter, in
declaration order. -/
theorem C5_in_range_ok (ctx : Ctx) (tu : TranslationUnit) (i : Nat)
    (isf : Bool) (m : AbcMethod) (sig : List ParamConfig)
    (rt : Option Multiname)
    (hm : tu.abc.methods[i]? = some m)
    (hs : buildSignature ctx tu m.params = .ok sig)
    (hr : ctx.pool_multiname_static_any tu m.return_type = .ok rt) :
    ∃ bm, BytecodeMethod.from_method_index ctx tu i isf = .ok bm ∧
      bm.signature = sig ∧
      bm.signature.length = m.params.length ∧
      ∀ (j : Nat) (p : AbcMethodParam), m.params[j]? = some p →
        ∃ c, bm.signature[j]? = some c ∧
          ParamConfig.from_abc_param ctx tu p = .ok c := by
  obtain ⟨hlen, helem⟩ := buildSignature_ok ctx tu m.params sig hs
  exact ⟨_, from_method_index_ok_intro ctx tu i isf m sig rt hm hs hr,
    rfl, hlen, helem⟩

/-- Witness for the amended C5 at entry 1 of tuA (one declared parameter). -/
theorem C5_in_range_ok_witness :
    tuA.abc.methods[1]? = some mA1 ∧
    buildSignature ctxA tuA mA1.params =
      .ok [{ param_type_name := none, default_value := none }] ∧
    ctxA.pool_multiname_static_any tuA mA1.return_type = .ok none ∧
    (∃ bm, BytecodeMethod.from_method_index ctxA tuA 1 false = .ok bm ∧
      bm.signature = [{ param_type_name := none, default_value := none }] ∧
      bm.signature.length = mA1.params.length ∧
      ∀ (j : Nat) (p : AbcMethodParam), mA1.params[j]? = some p →
        ∃ c, bm.signature[j]? = some c ∧
          ParamConfig.from_abc_param ctxA tuA p = .ok c) :=
  ⟨rfl, rfl, rfl,
    C5_in_range_ok ctxA tuA 1 false mA1
      [{ param_type_name := none, default_value := none }] none rfl rfl rfl⟩

/-- Claim C6: on a Bytecode variant whose container entry exists,
is_variadic is true exactly when the entry declares NEED_REST or
NEED_ARGUMENTS; on a Native variant it equals the construction-time flag.
The flag byte is a u8, hence the bound. -/
theorem C6_is_variadic (nm : NativeMethod) (bm : BytecodeMethod)
    (m : AbcMethod) (hm : bm.method? = some m) (h8 : m.flags < 256) :
    Method.is_variadic? (.Native nm) = some nm.is_variadic ∧
    (Method.is_variadic? (.Bytecode bm) = some true ↔
      flagsContains m.flags NEED_REST = true ∨
        flagsContains m.flags NEED_ARGUMENTS = true) := by
  refine ⟨rfl, ?_⟩
  simp only [Method.is_variadic?, BytecodeMethod.is_variadic?, hm,
    Option.map_some', Option.some.injEq]
  exact u8_intersects_iff m.flags h8

/-- Witness for C6 with the variadic native nmA and the NEED_REST entry of
bmA. -/
theorem C6_is_variadic_witness :
    bmA.method? = some mA0 ∧ mA0.flags < 256 ∧
    (Method.is_variadic? (.Native nmA) = some nmA.is_variadic ∧
      (Method.is_variadic? (.Bytecode bmA) = some true ↔
        flagsContains mA0.flags NEED_REST = true ∨
          flagsContains mA0.flags NEED_ARGUMENTS = true)) :=
  ⟨rfl, by decide, C6_is_variadic nmA bmA mA0 rfl (by decide)⟩

/-- Claim C7: needs_arguments_object is false on every Native variant and,
on a Bytecode variant whose entry exists, true exactly when the entry
declares NEED_ARGUMENTS; whenever it is true the method is also variadic. -/
theorem C7_needs_arguments_object (nm : NativeMethod) (bm : BytecodeMethod)
    (m : AbcMethod) (hm : bm.method? = some m) (h8 : m.flags < 256) :
    Method.needs_arguments_object? (.Native nm) = some false ∧
    (Method.needs_arguments_object? (.Bytecode bm) = some true ↔
      flagsContains m.flags NEED_ARGUMENTS = true) ∧
    (Method.needs_arguments_object? (.Bytecode bm) = some true →
      Method.is_variadic? (.Bytecode bm) = some true) := by
  have h2 : Method.needs_arguments_object? (.Bytecode bm) =
      some (flagsContains m.flags NEED_ARGUMENTS) := by
    simp [Method.needs_arguments_object?, hm]
  refine ⟨rfl, ?_, ?_⟩
  · rw [h2]
    simp
  · intro hT
    rw [h2, Option.some.injEq] at hT
    simp [Method.is_variadic?, BytecodeMethod.is_variadic?, hm,
      u8_contains_args_intersects m.flags h8 hT]

/-- Witness for C7 at the NEED_ARGUMENTS entry of bmA1, together with the
NEED_REST-only entry of bmA, which is variadic yet does not need the
arguments object. -/
theorem C7_needs_arguments_object_witness :
    bmA1.method? = some mA1 ∧ mA1.flags < 256 ∧
    (Method.needs_arguments_object? (.Native nmA) = some false ∧
      (Method.needs_arguments_object? (.Bytecode bmA1) = some true ↔
        flagsContains mA1.flags NEED_ARGUMENTS = true) ∧
      (Method.needs_arguments_object? (.Bytecode bmA1) = some true →
        Method.is_variadic? (.Bytecode bmA1) = some true)) ∧
    Method.is_variadic? (.Bytecode bmA) = some true ∧
    Method.needs_arguments_object? (.Bytecode bmA) = some false :=
  ⟨rfl, by decide,
    C7_needs_arguments_object nmA bmA1 mA1 rfl (by decide), rfl, rfl⟩

/-- Claim C8: reading resolved_return_type while the verified_info cache is
still empty hits the unwrap panic (modelled as the outer none) rather than
returning a value or an error; and after any verify that returned Ok the
cache is filled, so the panic branch is unreachable. -/
theorem C8_resolved_return_type_unverified_panics (bm : BytecodeMethod)
    (h : bm.verified_info = none) :
    bm.resolved_return_type? = none ∧
    ∀ (ctx : Ctx) (bm2 : BytecodeMethod),
      (BytecodeMethod.verify ctx bm2).2 = none →
      ((BytecodeMethod.verify ctx bm2).1).resolved_return_type? ≠ none := by
  refine ⟨by simp [BytecodeMethod.resolved_return_type?, h], ?_⟩
  intro ctx bm2 hok
  cases hv : ctx.verify_method bm2 with
  | ok info =>
      rw [verify_eq_of_ok ctx bm2 info hv]
      simp [BytecodeMethod.resolved_return_type?]
  | error e =>
      rw [verify_eq_of_error ctx bm2 e hv] at hok
      cases hok

/-- Witness for C8 at the unverified descriptor bmA. -/
theorem C8_resolved_return_type_unverified_panics_witness :
    bmA.verified_info = none ∧
    (bmA.resolved_return_type? = none ∧
      ∀ (ctx : Ctx) (bm2 : BytecodeMethod),
        (BytecodeMethod.verify ctx bm2).2 = none →
        ((BytecodeMethod.verify ctx bm2).1).resolved_return_type? ≠ none) :=
  ⟨rfl, C8_resolved_return_type_unverified_panics bmA rfl⟩

/-- Claim C9: every descriptor from_method_index builds stores the same ABC
file as its translation unit and a method index in range of its method
table, so the internal unwrap of method never fires and the queries
is_variadic, needs_arguments_object and method_name are total on it. -/
theorem C9_constructed_descriptor_total (ctx : Ctx) (tu : TranslationUnit)
    (i : Nat) (isf : Bool) (bm : BytecodeMethod)
    (h : BytecodeMethod.from_method_index ctx tu i isf = .ok bm) :
    bm.abc = tu.abc ∧ bm.txunit = tu ∧ bm.abc_method = i ∧
    bm.abc_method < bm.abc.methods.length ∧
    bm.method?.isSome = true ∧
    bm.is_variadic?.isSome = true ∧
    (Method.needs_arguments_object? (.Bytecode bm)).isSome = true ∧
    bm.method_name?.isSome = true := by
  obtain ⟨m, sig, rt, hm, hs, hr, hbm⟩ :=
    from_method_index_ok_destruct ctx tu i isf bm h
  subst hbm
  have hlt : i < tu.abc.methods.length := by
    by_contra hlt
    push_neg at hlt
    rw [List.getElem?_eq_none hlt] at hm
    cases hm
  refine ⟨rfl, rfl, rfl, hlt, ?_, ?_, ?_, ?_⟩
  · simp [BytecodeMethod.method?, hm]
  · simp [BytecodeMethod.is_variadic?, BytecodeMethod.method?, hm]
  · simp [Method.needs_arguments_object?, BytecodeMethod.method?, hm]
  · simp [BytecodeMethod.method_name?, BytecodeMethod.method?, hm]

/-- Witness for C9 at entry 0 of tuA. -/
theorem C9_constructed_descriptor_total_witness :
    BytecodeMethod.from_method_index ctxA tuA 0 true = .ok bmA ∧
    (bmA.abc = tuA.abc ∧ bmA.txunit = tuA ∧ bmA.abc_method = 0 ∧
      bmA.abc_method < bmA.abc.methods.length ∧
      bmA.method?.isSome = true ∧
      bmA.is_variadic?.isSome = true ∧
      (Method.needs_arguments_object? (.Bytecode bmA)).isSome = true ∧
      bmA.method_name?.isSome = true) :=
  ⟨rfl, C9_constructed_descriptor_total ctxA tuA 0 true bmA rfl⟩

/-- Claim C10: wrapping a bytecode descriptor into a Method and taking
into_bytecode returns the same descriptor, and into_bytecode on a Native
variant returns none. -/
theorem C10_into_bytecode_round_trip :
    (∀ bm : BytecodeMethod,
      (Method.fromBytecodeMethod bm).into_bytecode = some bm) ∧
    ∀ nm : NativeMethod, (Method.Native nm).into_bytecode = none :=
  ⟨fun _ => rfl, fun _ => rfl⟩

end AVM2
